import Mathlib

/-!
# Verification of the API-error boundary of `src/src/types/index.ts`

Shallow embedding of the runtime type guard `isApiError` and the
constructor `createApiError` from `src/src/types/index.ts`
(HoneyGpt/ecommerce-store), together with proofs of the specification
claims about them.

JavaScript runtime values are modelled by the inductive type `JSValue`
(null, undefined, booleans, numbers, strings, arrays, and objects as
association lists of own enumerable properties, in insertion order).
Property access, `typeof`, truthiness and `Array.isArray` are embedded
faithfully; object spread (`{...p}`) is modelled by `spreadInto`.
-/

namespace ECommerceTypes

/-- A JavaScript runtime value, as relevant to the module under study.
Objects are association lists of own enumerable string-keyed properties
in insertion order (a real JS object has no duplicate keys; the list
model allows them, and lookups take the first occurrence, as property
access would). Numbers are modelled as integers: no arithmetic is
performed by the code under study, only truthiness and `typeof`. -/
inductive JSValue : Type where
  | null : JSValue
  | undefined : JSValue
  | bool : Bool → JSValue
  | num : Int → JSValue
  | str : String → JSValue
  | arr : List JSValue → JSValue
  | obj : List (String × JSValue) → JSValue

/-- JavaScript `typeof`: note `typeof null === 'object'` and
`typeof [] === 'object'`. -/
def jsTypeof : JSValue → String
  | .null => "object"
  | .undefined => "undefined"
  | .bool _ => "boolean"
  | .num _ => "number"
  | .str _ => "string"
  | .arr _ => "object"
  | .obj _ => "object"

/-- JavaScript truthiness (`Boolean(v)`): `null`, `undefined`, `false`,
`0` and `""` are falsy; every object and array is truthy. -/
def toBool : JSValue → Bool
  | .null => false
  | .undefined => false
  | .bool b => b
  | .num n => n != 0
  | .str s => s != ""
  | .arr _ => true
  | .obj _ => true

/-- First-occurrence lookup in an object's property list. -/
def jLookup : List (String × JSValue) → String → Option JSValue
  | [], _ => none
  | p :: fs, k => if p.1 = k then some p.2 else jLookup fs k

/-- Property read `v[k]` on a value that is not `null`/`undefined`:
an object yields its property (or `undefined` when absent); any other
value has none of the properties this module reads, so yields
`undefined`. A property present with value `undefined` is
indistinguishable from an absent one here, exactly as `v.k` is in JS. -/
def getProp : JSValue → String → JSValue
  | .obj fs, k => (jLookup fs k).getD .undefined
  | _, _ => .undefined

/-- `Array.isArray`. -/
def isArray : JSValue → Bool
  | .arr _ => true
  | _ => false

/-- The elements of an array value (irrelevant default on non-arrays;
the code under study only reads elements after an `Array.isArray`
guard). -/
def arrElems : JSValue → List JSValue
  | .arr es => es
  | _ => []

/-- Is this value `undefined`? (The `x === undefined` test.) -/
def isUndefined : JSValue → Bool
  | .undefined => true
  | _ => false

/-- Is this value a string? -/
def isStringVal : JSValue → Bool
  | .str _ => true
  | _ => false

/-- The element-wise check performed by the `every` callback inside
`isApiError` (`src/src/types/index.ts` lines 317-321):
`f && typeof f === 'object' && typeof f.field === 'string' &&
typeof f.message === 'string'`. -/
def isFieldErrorOk (f : JSValue) : Bool :=
  toBool f && jsTypeof f == "object" &&
    jsTypeof (getProp f "field") == "string" &&
    jsTypeof (getProp f "message") == "string"

/-- Embedding of `isApiError` (`src/src/types/index.ts` lines 306-325):

```ts
export function isApiError(input: unknown): input is ApiError {
  if (!input || typeof input !== 'object') return false;
  const i = input as Record<string, unknown>;
  return (
    typeof i.code === 'string' &&
    typeof i.message === 'string' &&
    (i.details === undefined || typeof i.details === 'object') &&
    (i.fieldErrors === undefined ||
      (Array.isArray(i.fieldErrors) &&
        i.fieldErrors.every((f) => f && typeof f === 'object' &&
          typeof (f as any).field === 'string' &&
          typeof (f as any).message === 'string'))) &&
    (i.correlationId === undefined || typeof i.correlationId === 'string')
  );
}
```
-/
def isApiError (input : JSValue) : Bool :=
  if !toBool input || jsTypeof input != "object" then false
  else
    jsTypeof (getProp input "code") == "string" &&
    jsTypeof (getProp input "message") == "string" &&
    (isUndefined (getProp input "details") ||
      jsTypeof (getProp input "details") == "object") &&
    (isUndefined (getProp input "fieldErrors") ||
      (isArray (getProp input "fieldErrors") &&
        (arrElems (getProp input "fieldErrors")).all isFieldErrorOk)) &&
    (isUndefined (getProp input "correlationId") ||
      jsTypeof (getProp input "correlationId") == "string")

/-- Assignment of property `k` to value `v` on an object's property
list: overwrite the (first) existing occurrence in place, else append —
the semantics of a later spread entry overriding an earlier key. -/
def setField : List (String × JSValue) → String → JSValue → List (String × JSValue)
  | [], k, v => [(k, v)]
  | p :: fs, k, v => if p.1 = k then (k, v) :: fs else p :: setField fs k v

/-- Object spread `{...base, ...fs}`: copy the entries of `fs` onto
`base` in order, later keys overriding earlier ones. -/
def spreadInto (base fs : List (String × JSValue)) : List (String × JSValue) :=
  fs.foldl (fun acc p => setField acc p.1 p.2) base

/-- The property list of the object built by `createApiError`
(`src/src/types/index.ts` lines 330-337): the literal
`{ details: undefined, fieldErrors: undefined, correlationId: undefined,
...partial }`. -/
def createApiErrorFields (fs : List (String × JSValue)) : List (String × JSValue) :=
  spreadInto
    [("details", .undefined), ("fieldErrors", .undefined), ("correlationId", .undefined)] fs

/-- Embedding of `createApiError` (`src/src/types/index.ts` lines
330-337). Its TypeScript signature takes an object
(`Partial<ApiError> & Pick<ApiError, 'code' | 'message'>`), embedded
here as that object's property list. -/
def createApiError (fs : List (String × JSValue)) : JSValue :=
  .obj (createApiErrorFields fs)

/-- The ten members of the `ApiErrorCode` union
(`src/src/types/index.ts` lines 190-200). -/
def apiErrorCodes : List String :=
  ["BAD_REQUEST", "UNAUTHORIZED", "FORBIDDEN", "NOT_FOUND", "CONFLICT",
   "RATE_LIMITED", "VALIDATION_ERROR", "INTERNAL_ERROR",
   "SERVICE_UNAVAILABLE", "TIMEOUT"]

/-- Specification-side rendering of the `ApiError` shape, written from
the spec's words (for comparison with the code's `isApiError`): the
value has a string `code` and a string `message`, and — when the field
is present, i.e. not `undefined` — `details` is an object-typed value,
`fieldErrors` is a sequence in which every element has a string `field`
and a string `message`, and `correlationId` is a string. -/
def specApiErrorShape (v : JSValue) : Bool :=
  isStringVal (getProp v "code") &&
  isStringVal (getProp v "message") &&
  (isUndefined (getProp v "details") ||
    jsTypeof (getProp v "details") == "object") &&
  (match getProp v "fieldErrors" with
    | .undefined => true
    | .arr es => es.all fun e =>
        isStringVal (getProp e "field") && isStringVal (getProp e "message")
    | _ => false) &&
  (isUndefined (getProp v "correlationId") ||
    isStringVal (getProp v "correlationId"))

/-! ## Basic lemmas -/

theorem jsTypeof_eq_string (x : JSValue) :
    (jsTypeof x == "string") = isStringVal x := by
  cases x <;> rfl

theorem getProp_non_obj (v : JSValue) (k : String) (h : ∀ fs, v ≠ .obj fs) :
    getProp v k = .undefined := by
  cases v <;> first | rfl | exact absurd rfl (h _)

theorem isFieldErrorOk_eq (e : JSValue) :
    isFieldErrorOk e =
      (isStringVal (getProp e "field") && isStringVal (getProp e "message")) := by
  cases e with
  | obj gs =>
      simp only [isFieldErrorOk, jsTypeof_eq_string]
      simp [toBool, jsTypeof]
  | null => rfl
  | undefined => rfl
  | arr es => rfl
  | _ => simp [isFieldErrorOk, toBool, jsTypeof, getProp, isStringVal]

/-- On an object, `isApiError` unfolds to its conjunction of property
checks (the `!input || typeof input !== 'object'` guard is false). -/
theorem isApiError_obj (fs : List (String × JSValue)) :
    isApiError (.obj fs) =
      (jsTypeof (getProp (.obj fs) "code") == "string" &&
       jsTypeof (getProp (.obj fs) "message") == "string" &&
       (isUndefined (getProp (.obj fs) "details") ||
         jsTypeof (getProp (.obj fs) "details") == "object") &&
       (isUndefined (getProp (.obj fs) "fieldErrors") ||
         (isArray (getProp (.obj fs) "fieldErrors") &&
           (arrElems (getProp (.obj fs) "fieldErrors")).all isFieldErrorOk)) &&
       (isUndefined (getProp (.obj fs) "correlationId") ||
         jsTypeof (getProp (.obj fs) "correlationId") == "string")) := rfl

/-- The `fieldErrors` clause of `isApiError` agrees with the spec's
"a sequence in which every element has a string `field` and a string
`message`". -/
theorem fieldErrors_clause_eq (fe : JSValue) :
    (isUndefined fe || (isArray fe && (arrElems fe).all isFieldErrorOk)) =
      (match fe with
        | .undefined => true
        | .arr es => es.all fun e =>
            isStringVal (getProp e "field") && isStringVal (getProp e "message")
        | _ => false) := by
  cases fe <;> simp [isUndefined, isArray, arrElems, funext isFieldErrorOk_eq]

/-- The type guard and the spec-side shape agree on every value: a value
that is not a truthy `typeof === 'object'` value has no string `code`
property, and the `every` callback's truthiness and `typeof` guards are
subsumed by the string checks on `field` and `message`. -/
theorem isApiError_eq_specApiErrorShape (v : JSValue) :
    isApiError v = specApiErrorShape v := by
  cases v with
  | obj fs =>
      rw [isApiError_obj, fieldErrors_clause_eq]
      simp only [specApiErrorShape, jsTypeof_eq_string]
  | bool b =>
      simp [isApiError, specApiErrorShape, getProp, jsTypeof, toBool, isStringVal]
  | num n =>
      simp [isApiError, specApiErrorShape, getProp, jsTypeof, toBool, isStringVal]
  | str s =>
      simp [isApiError, specApiErrorShape, getProp, jsTypeof, toBool, isStringVal]
  | _ => rfl

/-! ## Lookup and spread lemmas -/

/-- Last-occurrence lookup: the value a spread of this property list
contributes for a key (later entries override earlier ones). -/
def jLookupLast : List (String × JSValue) → String → Option JSValue
  | [], _ => none
  | p :: fs, k =>
      match jLookupLast fs k with
      | some v => some v
      | none => if p.1 = k then some p.2 else none

theorem jLookup_setField (fs : List (String × JSValue)) (k : String)
    (v : JSValue) (q : String) :
    jLookup (setField fs k v) q = if q = k then some v else jLookup fs q := by
  induction fs with
  | nil =>
      simp only [setField, jLookup]
      rcases eq_or_ne q k with h | h
      · subst h; simp
      · simp [h, Ne.symm h]
  | cons p fs ih =>
      simp only [setField]
      by_cases hpk : p.1 = k
      · subst hpk
        by_cases hq : q = p.1 <;> simp [jLookup, hq, eq_comm]
      · by_cases hq : p.1 = q
        · have : ¬ q = k := fun h => hpk (hq.trans h)
          simp [jLookup, hpk, hq, this]
        · simp [jLookup, hpk, hq, ih]

theorem jLookup_spreadInto (fs base : List (String × JSValue)) (k : String) :
    jLookup (spreadInto base fs) k =
      match jLookupLast fs k with
      | some v => some v
      | none => jLookup base k := by
  induction fs generalizing base with
  | nil => rfl
  | cons p fs ih =>
      show jLookup (spreadInto (setField base p.1 p.2) fs) k = _
      rw [ih]
      simp only [jLookupLast, jLookup_setField]
      cases jLookupLast fs k with
      | some v => rfl
      | none =>
          by_cases hq : k = p.1 <;> simp [hq, eq_comm]

theorem jLookup_eq_none_of_not_mem (fs : List (String × JSValue))
    (k : String) (h : k ∉ fs.map Prod.fst) : jLookup fs k = none := by
  induction fs with
  | nil => rfl
  | cons p fs ih =>
      simp only [List.map_cons, List.mem_cons] at h
      push_neg at h
      simp [jLookup, ih h.2, Ne.symm h.1]

theorem jLookupLast_eq_jLookup (fs : List (String × JSValue))
    (hnd : (fs.map Prod.fst).Nodup) (k : String) :
    jLookupLast fs k = jLookup fs k := by
  induction fs with
  | nil => rfl
  | cons p fs ih =>
      simp only [List.map_cons, List.nodup_cons] at hnd
      simp only [jLookupLast, jLookup, ih hnd.2]
      by_cases hp : p.1 = k
      · subst hp
        rw [jLookup_eq_none_of_not_mem fs p.1 hnd.1]
      · rw [if_neg hp, if_neg hp]
        cases jLookup fs k <;> rfl

/-- On a duplicate-free property list (every real JS object), the object
built by `createApiError` answers every property read exactly as the
input object does: supplied properties are preserved, and the three
defaulted properties read as `undefined` either way (defaulted to
`undefined` when absent, overridden by the spread when present). -/
theorem getProp_createApiError (fs : List (String × JSValue))
    (hnd : (fs.map Prod.fst).Nodup) (k : String) :
    getProp (createApiError fs) k = getProp (.obj fs) k := by
  show (jLookup (spreadInto _ fs) k).getD .undefined = (jLookup fs k).getD .undefined
  rw [jLookup_spreadInto, jLookupLast_eq_jLookup fs hnd]
  cases hk : jLookup fs k with
  | some v => rfl
  | none =>
      by_cases h1 : k = "details"
      · subst h1; rfl
      by_cases h2 : k = "fieldErrors"
      · subst h2; rfl
      by_cases h3 : k = "correlationId"
      · subst h3; rfl
      simp [jLookup, Ne.symm h1, Ne.symm h2, Ne.symm h3]

/-- `isApiError` gives the same verdict on the output of
`createApiError` as on its input object (duplicate-free keys): the guard
inspects the value only through property reads of a truthy object. -/
theorem isApiError_createApiError (fs : List (String × JSValue))
    (hnd : (fs.map Prod.fst).Nodup) :
    isApiError (createApiError fs) = isApiError (.obj fs) := by
  show isApiError (.obj (createApiErrorFields fs)) = _
  rw [isApiError_obj, isApiError_obj]
  have h := getProp_createApiError fs hnd
  simp only [createApiError] at h
  rw [h, h, h, h, h]

/-! ## Exception-aware semantics

To settle the claim that `isApiError` and `createApiError` never throw,
the same code is embedded once more in `Except String`, where each
JavaScript operation that can raise a `TypeError` — reading a property
of `null`/`undefined`, invoking `.every` on a non-array — is modelled as
`Except.error`, following the evaluation order (short-circuiting `&&`,
`||`) of the source. -/

/-- Property read that raises on `null`/`undefined` receivers, as
`v.k` does in JavaScript. -/
def getPropE (v : JSValue) (k : String) : Except String JSValue :=
  match v with
  | .null => .error "TypeError: cannot read properties of null"
  | .undefined => .error "TypeError: cannot read properties of undefined"
  | v => .ok (getProp v k)

/-- The `every` callback of `isApiError`, with each property read
modelled as fallible: the reads of `f.field` and `f.message` happen only
after the `f && typeof f === 'object'` guards. -/
def fieldOkE (f : JSValue) : Except String Bool :=
  if !toBool f then .ok false
  else if jsTypeof f != "object" then .ok false
  else do
    let fld ← getPropE f "field"
    if jsTypeof fld != "string" then return false
    let msg ← getPropE f "message"
    return jsTypeof msg == "string"

/-- `Array.prototype.every` over the element list, short-circuiting on
the first `false`, propagating any exception of the callback. -/
def everyE : List JSValue → Except String Bool
  | [] => .ok true
  | f :: fs => do
    let b ← fieldOkE f
    if b then everyE fs else return false

/-- Exception-aware embedding of `isApiError`: the guard
`!input || typeof input !== 'object'` runs first; afterwards each
property read of `i` is fallible, and `.every` is invoked on
`i.fieldErrors` only behind the `Array.isArray` test. -/
def isApiErrorE (input : JSValue) : Except String Bool :=
  if !toBool input || jsTypeof input != "object" then .ok false
  else do
    let code ← getPropE input "code"
    if jsTypeof code != "string" then return false
    let msg ← getPropE input "message"
    if jsTypeof msg != "string" then return false
    let det ← getPropE input "details"
    if !(isUndefined det || jsTypeof det == "object") then return false
    let fe ← getPropE input "fieldErrors"
    let feOk ←
      if isUndefined fe then pure true
      else if !isArray fe then pure false
      else everyE (arrElems fe)
    if !feOk then return false
    let cid ← getPropE input "correlationId"
    return (isUndefined cid || jsTypeof cid == "string")

/-- Exception-aware embedding of `createApiError`: the body is a single
object literal with a spread of the (object-typed) argument, an
operation with no throwing execution path. -/
def createApiErrorE (fs : List (String × JSValue)) : Except String JSValue :=
  .ok (.obj (createApiErrorFields fs))

theorem getPropE_obj (fs : List (String × JSValue)) (k : String) :
    getPropE (.obj fs) k = .ok (getProp (.obj fs) k) := rfl

theorem exceptBind_ok {α β : Type} (a : α) (f : α → Except String β) :
    (Except.ok a : Except String α) >>= f = f a := rfl

theorem toBool_obj (fs : List (String × JSValue)) : toBool (.obj fs) = true := rfl

theorem jsTypeof_obj (fs : List (String × JSValue)) :
    jsTypeof (.obj fs) = "object" := rfl

theorem fieldOkE_eq (f : JSValue) : fieldOkE f = .ok (isFieldErrorOk f) := by
  cases f with
  | obj gs =>
      cases hf : jsTypeof (getProp (JSValue.obj gs) "field") == "string" <;>
      cases hm : jsTypeof (getProp (JSValue.obj gs) "message") == "string" <;>
        simp only [fieldOkE, getPropE_obj, exceptBind_ok, bne, isFieldErrorOk,
          toBool_obj, jsTypeof_obj, beq_self_eq_true, hf, hm,
          Bool.not_true, Bool.not_false, Bool.true_and, Bool.and_true,
          Bool.false_and, Bool.and_false, reduceIte] <;> rfl
  | bool b => cases b <;> rfl
  | num n =>
      simp only [fieldOkE, isFieldErrorOk]
      cases hb : toBool (JSValue.num n) <;> simp [hb, jsTypeof, getProp, getPropE]
  | str s =>
      simp only [fieldOkE, isFieldErrorOk]
      cases hb : toBool (JSValue.str s) <;> simp [hb, jsTypeof, getProp, getPropE]
  | _ => rfl

theorem everyE_eq (es : List JSValue) : everyE es = .ok (es.all isFieldErrorOk) := by
  induction es with
  | nil => rfl
  | cons f fs ih =>
      show (do
        let b ← fieldOkE f
        if b then everyE fs else return false) = _
      rw [fieldOkE_eq]
      cases hf : isFieldErrorOk f <;> simp [hf, ih, List.all_cons] <;> rfl

/-- The exception-aware run of `isApiError` succeeds on every input,
returning exactly the pure verdict: every property read happens behind
the `!input || typeof input !== 'object'` guard (and, inside the
callback, behind `f && typeof f === 'object'`), and `.every` is only
invoked behind `Array.isArray`. -/
theorem isApiErrorE_eq (v : JSValue) : isApiErrorE v = .ok (isApiError v) := by
  cases v with
  | obj fs =>
      rw [isApiError_obj]
      cases h1 : jsTypeof (getProp (JSValue.obj fs) "code") == "string" <;>
      cases h2 : jsTypeof (getProp (JSValue.obj fs) "message") == "string" <;>
      cases h3 : (isUndefined (getProp (JSValue.obj fs) "details") ||
        jsTypeof (getProp (JSValue.obj fs) "details") == "object") <;>
      cases h4 : isUndefined (getProp (JSValue.obj fs) "fieldErrors") <;>
      cases h5 : isArray (getProp (JSValue.obj fs) "fieldErrors") <;>
      cases h6 : (arrElems (getProp (JSValue.obj fs) "fieldErrors")).all isFieldErrorOk <;>
        simp only [isApiErrorE, getPropE_obj, exceptBind_ok, everyE_eq, bne,
          toBool_obj, jsTypeof_obj, beq_self_eq_true, h1, h2, h3, h4, h5, h6,
          Bool.not_true, Bool.not_false, Bool.true_and, Bool.and_true,
          Bool.false_and, Bool.and_false, Bool.true_or, Bool.or_true,
          Bool.false_or, Bool.or_false, Bool.or_self, reduceIte] <;> rfl
  | bool b => cases b <;> rfl
  | num n =>
      cases hb : toBool (JSValue.num n) <;>
        simp [isApiErrorE, isApiError, hb, jsTypeof, getProp, getPropE,
          isUndefined, isArray, arrElems]
  | str s =>
      cases hb : toBool (JSValue.str s) <;>
        simp [isApiErrorE, isApiError, hb, jsTypeof, getProp, getPropE,
          isUndefined, isArray, arrElems]
  | _ => rfl

/-- Sufficient conditions for the spec-side shape: string `code` and
`message`, and each optional field absent or conforming. -/
theorem specShape_intro (v : JSValue)
    (h1 : isStringVal (getProp v "code") = true)
    (h2 : isStringVal (getProp v "message") = true)
    (h3 : getProp v "details" = .undefined ∨ jsTypeof (getProp v "details") = "object")
    (h4 : getProp v "fieldErrors" = .undefined ∨
      ∃ es, getProp v "fieldErrors" = .arr es ∧ ∀ e ∈ es,
        isStringVal (getProp e "field") = true ∧
        isStringVal (getProp e "message") = true)
    (h5 : getProp v "correlationId" = .undefined ∨
      isStringVal (getProp v "correlationId") = true) :
    specApiErrorShape v = true := by
  simp only [specApiErrorShape, Bool.and_eq_true]
  refine ⟨⟨⟨⟨h1, h2⟩, ?_⟩, ?_⟩, ?_⟩
  · rcases h3 with h | h
    · simp [h, isUndefined]
    · simp [h]
  · rcases h4 with h | ⟨es, hes, hall⟩
    · rw [h]
    · rw [hes, List.all_eq_true]
      intro e he
      simp [(hall e he).1, (hall e he).2]
  · rcases h5 with h | h
    · simp [h, isUndefined]
    · simp [h]

/-! ## The claims -/

/-- Claim C1: for every input value, `isApiError` returns true if and
only if the value structurally satisfies the `ApiError` shape — a string
`code`, a string `message`, and, when the field is present, `details`
object-typed, `fieldErrors` a sequence whose every element has a string
`field` and a string `message`, and `correlationId` a string. Stated as
an equality between the code's guard and the spec-side shape predicate. -/
theorem isApiError_matches_spec_shape (v : JSValue) :
    isApiError v = specApiErrorShape v :=
  isApiError_eq_specApiErrorShape v

/-- Claim C2: `isApiError` and `createApiError` are total and never
throw: under the exception-aware semantics — where reading a property of
`null`/`undefined` raises — both functions succeed on every input, and
`isApiError` returns its pure (`false` rather than thrown) verdict. -/
theorem apiError_boundary_never_throws (v : JSValue)
    (fs : List (String × JSValue)) :
    isApiErrorE v = .ok (isApiError v) ∧
      createApiErrorE fs = .ok (createApiError fs) :=
  ⟨isApiErrorE_eq v, rfl⟩

/-- Claim C6: `isApiError` returns false on `null`, on any value whose
`typeof` is not `'object'`, and on any object whose `code` or `message`
is missing or not a string. -/
theorem isApiError_rejects_malformed (v : JSValue)
    (h : v = .null ∨ jsTypeof v ≠ "object" ∨
      isStringVal (getProp v "code") = false ∨
      isStringVal (getProp v "message") = false) :
    isApiError v = false := by
  rw [isApiError_eq_specApiErrorShape]
  cases v with
  | obj fs =>
      rcases h with h | h | h | h
      · cases h
      · exact absurd rfl h
      · simp [specApiErrorShape, h]
      · simp [specApiErrorShape, h]
  | _ => rfl

/-- Witness for C6 at the concrete input `null`. -/
theorem isApiError_rejects_malformed_witness :
    isApiError .null = false :=
  isApiError_rejects_malformed .null (Or.inl rfl)

/-- Claim C3, counterexample: the validator accepts an object whose
`code` is the string `"WEIRD"`, which is not one of the ten
`ApiErrorCode` tags — so not every value accepted by `isApiError` has a
`code` in the closed set. -/
theorem isApiError_accepts_code_outside_enum :
    isApiError (.obj [("code", .str "WEIRD"), ("message", .str "x")]) = true ∧
      "WEIRD" ∉ apiErrorCodes :=
  ⟨by decide, by decide⟩

/-- Claim C3, amended: every value accepted by `isApiError` has a
string `code` (not necessarily one of the ten tags) and a string
`message`; and every value produced by `createApiError` from an input
whose `code` is one of the ten tags and whose `message` is a string
keeps that `code` in the closed set with `message` a string. -/
theorem apiError_layer_invariant_amended :
    (∀ v, isApiError v = true →
      isStringVal (getProp v "code") = true ∧
        isStringVal (getProp v "message") = true) ∧
    (∀ fs c m, (fs.map Prod.fst).Nodup →
      jLookup fs "code" = some (.str c) → c ∈ apiErrorCodes →
      jLookup fs "message" = some (.str m) →
      getProp (createApiError fs) "code" = .str c ∧ c ∈ apiErrorCodes ∧
        getProp (createApiError fs) "message" = .str m) := by
  constructor
  · intro v h
    rw [isApiError_eq_specApiErrorShape] at h
    simp only [specApiErrorShape, Bool.and_eq_true] at h
    exact ⟨h.1.1.1.1, h.1.1.1.2⟩
  · intro fs c m hnd hc hmem hm
    refine ⟨?_, hmem, ?_⟩
    · rw [getProp_createApiError fs hnd]
      show (jLookup fs "code").getD .undefined = _
      rw [hc]
      rfl
    · rw [getProp_createApiError fs hnd]
      show (jLookup fs "message").getD .undefined = _
      rw [hm]
      rfl

/-- Witness for the amended C3 at concrete inputs. -/
theorem apiError_layer_invariant_amended_witness :
    (isStringVal (getProp
        (JSValue.obj [("code", .str "NOT_FOUND"), ("message", .str "x")])
        "code") = true ∧
      isStringVal (getProp
        (JSValue.obj [("code", .str "NOT_FOUND"), ("message", .str "x")])
        "message") = true) ∧
    (getProp (createApiError [("code", .str "NOT_FOUND"), ("message", .str "x")])
        "code" = .str "NOT_FOUND" ∧
      "NOT_FOUND" ∈ apiErrorCodes ∧
      getProp (createApiError [("code", .str "NOT_FOUND"), ("message", .str "x")])
        "message" = .str "x") :=
  ⟨apiError_layer_invariant_amended.1 _ (by decide),
   apiError_layer_invariant_amended.2
     [("code", .str "NOT_FOUND"), ("message", .str "x")]
     "NOT_FOUND" "x" (by decide) rfl (by decide) rfl⟩

/-- Claim C4: for every input with the required string `code` and
`message` whose optional fields, when supplied, conform to the
`ApiError` shape, the value built by `createApiError` passes
`isApiError`. -/
theorem createApiError_roundtrips_validator (fs : List (String × JSValue))
    (hnd : (fs.map Prod.fst).Nodup)
    (h1 : isStringVal (getProp (.obj fs) "code") = true)
    (h2 : isStringVal (getProp (.obj fs) "message") = true)
    (h3 : getProp (.obj fs) "details" = .undefined ∨
      jsTypeof (getProp (.obj fs) "details") = "object")
    (h4 : getProp (.obj fs) "fieldErrors" = .undefined ∨
      ∃ es, getProp (.obj fs) "fieldErrors" = .arr es ∧ ∀ e ∈ es,
        isStringVal (getProp e "field") = true ∧
        isStringVal (getProp e "message") = true)
    (h5 : getProp (.obj fs) "correlationId" = .undefined ∨
      isStringVal (getProp (.obj fs) "correlationId") = true) :
    isApiError (createApiError fs) = true := by
  rw [isApiError_createApiError fs hnd, isApiError_eq_specApiErrorShape]
  exact specShape_intro _ h1 h2 h3 h4 h5

/-- Witness for C4: the claim's two round-trip examples,
`{code: 'NOT_FOUND', message: 'x'}` and `{code: 'VALIDATION_ERROR',
message: 'bad', fieldErrors: [{field: 'email', message: 'invalid'}]}`. -/
theorem createApiError_roundtrips_validator_witness :
    isApiError (createApiError
      [("code", .str "NOT_FOUND"), ("message", .str "x")]) = true ∧
    isApiError (createApiError
      [("code", .str "VALIDATION_ERROR"), ("message", .str "bad"),
       ("fieldErrors", .arr
         [.obj [("field", .str "email"), ("message", .str "invalid")]])]) = true :=
  ⟨createApiError_roundtrips_validator _ (by decide) rfl rfl
     (Or.inl rfl) (Or.inl rfl) (Or.inl rfl),
   createApiError_roundtrips_validator _ (by decide) rfl rfl
     (Or.inl rfl)
     (Or.inr ⟨[.obj [("field", .str "email"), ("message", .str "invalid")]], rfl,
       by intro e he; simp only [List.mem_singleton] at he; subst he
          exact ⟨rfl, rfl⟩⟩)
     (Or.inl rfl)⟩

/-- Claim C5: `createApiError` (a pure function of its input) returns an
object in which `code` and `message` are read back exactly as supplied,
the three optional properties are present — defaulted to `undefined`
when the caller did not supply them, overlaid with the caller's value
when it did — and every other caller property is preserved. -/
theorem createApiError_defaults_and_overlay (fs : List (String × JSValue))
    (hnd : (fs.map Prod.fst).Nodup) :
    jLookup (createApiErrorFields fs) "code" = jLookup fs "code" ∧
    jLookup (createApiErrorFields fs) "message" = jLookup fs "message" ∧
    (∀ k, k ∈ (["details", "fieldErrors", "correlationId"] : List String) →
      jLookup (createApiErrorFields fs) k = some ((jLookup fs k).getD .undefined)) ∧
    (∀ k, k ∉ (["details", "fieldErrors", "correlationId"] : List String) →
      jLookup (createApiErrorFields fs) k = jLookup fs k) := by
  have hbase : ∀ k, jLookup (createApiErrorFields fs) k =
      match jLookup fs k with
      | some v => some v
      | none => jLookup [("details", JSValue.undefined), ("fieldErrors", JSValue.undefined),
          ("correlationId", JSValue.undefined)] k := by
    intro k
    rw [createApiErrorFields, jLookup_spreadInto, jLookupLast_eq_jLookup fs hnd]
  refine ⟨?_, ?_, ?_, ?_⟩
  · rw [hbase]
    cases h : jLookup fs "code" <;> rfl
  · rw [hbase]
    cases h : jLookup fs "message" <;> rfl
  · intro k hk
    fin_cases hk <;> rw [hbase] <;>
      first
        | (cases h : jLookup fs "details" <;> rfl)
        | (cases h : jLookup fs "fieldErrors" <;> rfl)
        | (cases h : jLookup fs "correlationId" <;> rfl)
  · intro k hk
    simp only [List.mem_cons, List.not_mem_nil, or_false, not_or] at hk
    rw [hbase]
    cases h : jLookup fs k with
    | some v => rfl
    | none => simp [jLookup, Ne.symm hk.1, Ne.symm hk.2.1, Ne.symm hk.2.2]

/-- Witness for C5 at a concrete input with a supplied `correlationId`,
an absent `details`/`fieldErrors`, and the required `code`/`message`. -/
theorem createApiError_defaults_and_overlay_witness :
    jLookup (createApiErrorFields
      [("code", .str "NOT_FOUND"), ("message", .str "x"),
       ("correlationId", .str "abc")]) "details" = some .undefined ∧
    jLookup (createApiErrorFields
      [("code", .str "NOT_FOUND"), ("message", .str "x"),
       ("correlationId", .str "abc")]) "correlationId" = some (.str "abc") ∧
    jLookup (createApiErrorFields
      [("code", .str "NOT_FOUND"), ("message", .str "x"),
       ("correlationId", .str "abc")]) "code" = some (.str "NOT_FOUND") := by
  have h := createApiError_defaults_and_overlay
    [("code", .str "NOT_FOUND"), ("message", .str "x"),
     ("correlationId", .str "abc")] (by decide)
  exact ⟨h.2.2.1 "details" (by decide), h.2.2.1 "correlationId" (by decide), h.1⟩

/-- Claim C7: an object with string `code` and `message` whose
`fieldErrors` is an array containing at least one element lacking a
string `field` or a string `message` is rejected by `isApiError`. -/
theorem isApiError_rejects_bad_fieldError_element
    (fs : List (String × JSValue)) (es : List JSValue)
    (h1 : isStringVal (getProp (.obj fs) "code") = true)
    (h2 : isStringVal (getProp (.obj fs) "message") = true)
    (hfe : getProp (.obj fs) "fieldErrors" = .arr es)
    (hbad : ∃ e ∈ es, isStringVal (getProp e "field") = false ∨
      isStringVal (getProp e "message") = false) :
    isApiError (.obj fs) = false := by
  rw [isApiError_eq_specApiErrorShape]
  simp only [specApiErrorShape, hfe]
  obtain ⟨e, he, hor⟩ := hbad
  have hall : (es.all fun e =>
      isStringVal (getProp e "field") && isStringVal (getProp e "message")) = false := by
    rw [List.all_eq_false]
    exact ⟨e, he, by rcases hor with h | h <;> simp [h]⟩
  rw [hall]
  simp

/-- Witness for C7: `fieldErrors: [5]` has a non-conforming element. -/
theorem isApiError_rejects_bad_fieldError_element_witness :
    isApiError (.obj [("code", .str "a"), ("message", .str "b"),
      ("fieldErrors", .arr [.num 5])]) = false :=
  isApiError_rejects_bad_fieldError_element _ [.num 5] rfl rfl rfl
    ⟨.num 5, by simp, Or.inl rfl⟩

/-- Claim C8: an object whose only properties are a string `code` and a
string `message` passes `isApiError`. -/
theorem isApiError_accepts_minimal_object (a b : String)
    (fs : List (String × JSValue))
    (hc : jLookup fs "code" = some (.str a))
    (hm : jLookup fs "message" = some (.str b))
    (honly : ∀ p ∈ fs, p.1 = "code" ∨ p.1 = "message") :
    isApiError (.obj fs) = true := by
  have hnone : ∀ k, k ≠ "code" → k ≠ "message" → jLookup fs k = none := by
    intro k hk1 hk2
    apply jLookup_eq_none_of_not_mem
    intro hmem
    obtain ⟨p, hp, he⟩ := List.mem_map.mp hmem
    rcases honly p hp with h | h
    · exact hk1 (he.symm.trans h)
    · exact hk2 (he.symm.trans h)
  rw [isApiError_eq_specApiErrorShape]
  exact specShape_intro _
    (by show isStringVal ((jLookup fs "code").getD .undefined) = true; rw [hc]; rfl)
    (by show isStringVal ((jLookup fs "message").getD .undefined) = true; rw [hm]; rfl)
    (Or.inl (by show (jLookup fs "details").getD .undefined = _
                rw [hnone "details" (by decide) (by decide)]
                rfl))
    (Or.inl (by show (jLookup fs "fieldErrors").getD .undefined = _
                rw [hnone "fieldErrors" (by decide) (by decide)]
                rfl))
    (Or.inl (by show (jLookup fs "correlationId").getD .undefined = _
                rw [hnone "correlationId" (by decide) (by decide)]
                rfl))

/-- Witness for C8 at `{code: 'E', message: 'm'}`. -/
theorem isApiError_accepts_minimal_object_witness :
    isApiError (.obj [("code", .str "E"), ("message", .str "m")]) = true :=
  isApiError_accepts_minimal_object "E" "m" _ rfl rfl (by decide)

/-- Claim C9, counterexample: the claim quantifies over every object
with a string `message` and a non-enumerated string `code`, but such an
object can still be rejected when another optional field is malformed —
here `fieldErrors: 5`. -/
theorem isApiError_weird_code_not_always_accepted :
    isStringVal (getProp (JSValue.obj [("code", .str "WEIRD"),
      ("message", .str "x"), ("fieldErrors", .num 5)]) "code") = true ∧
    "WEIRD" ∉ apiErrorCodes ∧
    isStringVal (getProp (JSValue.obj [("code", .str "WEIRD"),
      ("message", .str "x"), ("fieldErrors", .num 5)]) "message") = true ∧
    isApiError (.obj [("code", .str "WEIRD"), ("message", .str "x"),
      ("fieldErrors", .num 5)]) = false :=
  ⟨rfl, by decide, rfl, by decide⟩

/-- Claim C9, amended: for every object with a string `message`, a
string `code` outside the ten-member enumeration, and optional fields
that conform when present, `isApiError` still returns true: `code` is
checked only as a string, never against the closed enumeration. -/
theorem isApiError_accepts_unrecognized_code (fs : List (String × JSValue))
    (c : String)
    (hc : getProp (.obj fs) "code" = .str c)
    (henum : c ∉ apiErrorCodes)
    (h2 : isStringVal (getProp (.obj fs) "message") = true)
    (h3 : getProp (.obj fs) "details" = .undefined ∨
      jsTypeof (getProp (.obj fs) "details") = "object")
    (h4 : getProp (.obj fs) "fieldErrors" = .undefined ∨
      ∃ es, getProp (.obj fs) "fieldErrors" = .arr es ∧ ∀ e ∈ es,
        isStringVal (getProp e "field") = true ∧
        isStringVal (getProp e "message") = true)
    (h5 : getProp (.obj fs) "correlationId" = .undefined ∨
      isStringVal (getProp (.obj fs) "correlationId") = true) :
    isApiError (.obj fs) = true := by
  rw [isApiError_eq_specApiErrorShape]
  exact specShape_intro _ (by rw [hc]; rfl) h2 h3 h4 h5

/-- Witness for the amended C9 at `{code: 'WEIRD', message: 'x'}`. -/
theorem isApiError_accepts_unrecognized_code_witness :
    isApiError (.obj [("code", .str "WEIRD"), ("message", .str "x")]) = true :=
  isApiError_accepts_unrecognized_code _ "WEIRD" rfl (by decide) rfl
    (Or.inl rfl) (Or.inl rfl) (Or.inl rfl)

/-- Claim C10, counterexample: the claim quantifies over every object
with a string `code`, a string `message` and `details: null`, but such
an object can still be rejected when another optional field is
malformed — here `fieldErrors: 5`. -/
theorem isApiError_null_details_not_always_accepted :
    getProp (JSValue.obj [("code", .str "a"), ("message", .str "b"),
      ("details", .null), ("fieldErrors", .num 5)]) "details" = .null ∧
    isStringVal (getProp (JSValue.obj [("code", .str "a"),
      ("message", .str "b"), ("details", .null),
      ("fieldErrors", .num 5)]) "code") = true ∧
    isStringVal (getProp (JSValue.obj [("code", .str "a"),
      ("message", .str "b"), ("details", .null),
      ("fieldErrors", .num 5)]) "message") = true ∧
    isApiError (.obj [("code", .str "a"), ("message", .str "b"),
      ("details", .null), ("fieldErrors", .num 5)]) = false :=
  ⟨rfl, rfl, rfl, by decide⟩

/-- Claim C10, amended: an object with a string `code`, a string
`message`, `details` equal to `null`, and remaining optional fields
conforming when present, passes `isApiError`: the
`typeof details === 'object'` check accepts `null`, although the
declared `ApiError` type requires `details`, when present, to be a
string-keyed record. -/
theorem isApiError_accepts_null_details (fs : List (String × JSValue))
    (h1 : isStringVal (getProp (.obj fs) "code") = true)
    (h2 : isStringVal (getProp (.obj fs) "message") = true)
    (hdet : getProp (.obj fs) "details" = .null)
    (h4 : getProp (.obj fs) "fieldErrors" = .undefined ∨
      ∃ es, getProp (.obj fs) "fieldErrors" = .arr es ∧ ∀ e ∈ es,
        isStringVal (getProp e "field") = true ∧
        isStringVal (getProp e "message") = true)
    (h5 : getProp (.obj fs) "correlationId" = .undefined ∨
      isStringVal (getProp (.obj fs) "correlationId") = true) :
    isApiError (.obj fs) = true := by
  rw [isApiError_eq_specApiErrorShape]
  exact specShape_intro _ h1 h2 (Or.inr (by rw [hdet]; rfl)) h4 h5

/-- Witness for the amended C10 at
`{code: 'a', message: 'b', details: null}`. -/
theorem isApiError_accepts_null_details_witness :
    isApiError (.obj [("code", .str "a"), ("message", .str "b"),
      ("details", .null)]) = true :=
  isApiError_accepts_null_details _ rfl rfl rfl (Or.inl rfl) (Or.inl rfl)

end ECommerceTypes
